import Mathlib

/-!
Verification of the excel-ai-engine query-to-execution pipeline.

This file shallowly embeds the core services of the repository
(`app/services/llm_service.py`, `app/services/excel_service.py`,
`app/services/join_service.py`) as executable Lean definitions and proves
properties of them.  Python strings are Lean `String`s, Python lists are
Lean `List`s, pandas DataFrames are modelled as a `Table` of named columns
over a list of rows of cells, and Python exceptions are modelled with
`Except`.  The pandas/numpy engine itself is an external dependency of the
repository, so where generated code or `pd.merge` runs, its behaviour is a
parameter (an arbitrary function), not a reimplementation.
-/

/-- Model of Python `str.lower()` (ASCII case folding, which covers every
keyword the validator compares against). -/
def lowerStr (s : String) : String :=
  ⟨s.data.map Char.toLower⟩

/-- Helper for `strIn`: does `n` occur as a contiguous sublist of the second
argument? -/
def infixOfAux (n : List Char) : List Char → Bool
  | [] => n.isEmpty
  | c :: t => n.isPrefixOf (c :: t) || infixOfAux n t

/-- Model of the Python substring test `needle in hay`. -/
def strIn (needle hay : String) : Bool :=
  infixOfAux needle.data hay.data

deriving instance DecidableEq for Except

/-- Model of Python `s.startswith(pre)`. -/
def strStarts (pre s : String) : Bool :=
  pre.data.isPrefixOf s.data

/-- Python whitespace characters stripped by `str.strip()` (ASCII range). -/
def isSpaceChar (c : Char) : Bool :=
  c = ' ' || c = '\t' || c = '\n' || c = '\r' || c = '\x0b' || c = '\x0c'

/-- Model of Python `s.strip()`. -/
def pyStrip (s : String) : String :=
  ⟨((s.data.dropWhile isSpaceChar).reverse.dropWhile isSpaceChar).reverse⟩

/-- Helper for `splitLines`: split a character list at newline characters. -/
def splitNl : List Char → List (List Char)
  | [] => [[]]
  | c :: t =>
    let r := splitNl t
    if c = '\n' then [] :: r
    else
      match r with
      | [] => [[c]]
      | h :: t2 => (c :: h) :: t2

/-- Model of Python `s.split('\n')`. -/
def splitLines (s : String) : List String :=
  (splitNl s.data).map (fun l => ⟨l⟩)

/-! ## Code Validator (`llm_service.LLMService.validate_and_enhance_code`) -/

/-- The denylist of `validate_and_enhance_code`
(src/app/services/llm_service.py lines 377-382), verbatim. -/
def forbidden_keywords : List String :=
  ["eval", "exec", "compile", "__import__",
   "open", "file", "input", "os.", "sys.",
   "subprocess", "socket", "requests", "urllib",
   "pickle", "shelve", "marshal"]

/-- The import allow-list of `validate_and_enhance_code`
(src/app/services/llm_service.py line 393), verbatim. -/
def allowed_imports : List String :=
  ["import pandas as pd", "import numpy as np", "from datetime import"]

/-- The validator raises `ValueError` (the spec calls it `ValidationError`)
for three rules; each constructor records the datum the source interpolates
into the error message. -/
inductive ValidationError
  | forbidden (kw : String)
  | badImport (line : String)
  | missingResult
deriving DecidableEq, Repr

/-- True when a line is an import line whose text matches no allow-list
entry: the source strips the line, tests `startswith('import ')` or
`startswith('from ')`, and then tests each allowed fragment for substring
membership in the (unstripped) line. -/
def isBadImportLine (line : String) : Bool :=
  (strStarts "import " (pyStrip line) || strStarts "from " (pyStrip line))
    && !(allowed_imports.any (fun a => strIn a line))

/-- Embedding of `LLMService.validate_and_enhance_code`
(src/app/services/llm_service.py lines 363-412): first the case-insensitive
denylist scan (first matching keyword raises), then the per-line import
check, then the output-binding presence check; on success the code is
returned unchanged. -/
def validate_and_enhance_code (code : String) : Except ValidationError String :=
  match forbidden_keywords.find? (fun kw => strIn (lowerStr kw) (lowerStr code)) with
  | some kw => .error (.forbidden kw)
  | none =>
    match (splitLines code).find? isBadImportLine with
    | some line => .error (.badImport line)
    | none =>
      if !strIn "result" code && !strIn "result =" code then
        .error .missingResult
      else
        .ok code

example : validate_and_enhance_code "result = df.head()" = .ok "result = df.head()" := by decide
example : validate_and_enhance_code "result = EVAL(x)" = .error (.forbidden "eval") := by decide
example : validate_and_enhance_code "import json\nresult = 1" = .error (.badImport "import json") := by decide
example : validate_and_enhance_code "x = 1" = .error .missingResult := by decide

/-- C1: for every generated code string containing any forbidden substring
(compared case-insensitively), `validate_and_enhance_code` raises a
`ValidationError` identifying the violated rule (the matched forbidden
keyword) and never returns the code. -/
theorem validate_rejects_forbidden (code : String)
    (h : ∃ kw ∈ forbidden_keywords, strIn (lowerStr kw) (lowerStr code) = true) :
    (∃ kw2 ∈ forbidden_keywords,
        strIn (lowerStr kw2) (lowerStr code) = true
        ∧ validate_and_enhance_code code = .error (.forbidden kw2))
    ∧ ∀ s, validate_and_enhance_code code ≠ .ok s := by
  obtain ⟨kw, hmem, hin⟩ := h
  have hsome : (forbidden_keywords.find? (fun k => strIn (lowerStr k) (lowerStr code))).isSome := by
    rw [List.find?_isSome]
    exact ⟨kw, hmem, hin⟩
  obtain ⟨kw2, hfind⟩ := Option.isSome_iff_exists.mp hsome
  have hp := List.find?_some hfind
  refine ⟨⟨kw2, List.mem_of_find?_eq_some hfind, hp, ?_⟩, ?_⟩
  · unfold validate_and_enhance_code
    rw [hfind]
  · intro s hcontra
    unfold validate_and_enhance_code at hcontra
    rw [hfind] at hcontra
    cases hcontra

/-- Witness for C1 at the concrete code string "result = eval(data)". -/
theorem validate_rejects_forbidden_witness :
    (∃ kw2 ∈ forbidden_keywords,
        strIn (lowerStr kw2) (lowerStr "result = eval(data)") = true
        ∧ validate_and_enhance_code "result = eval(data)" = .error (.forbidden kw2))
    ∧ ∀ s, validate_and_enhance_code "result = eval(data)" ≠ .ok s :=
  validate_rejects_forbidden "result = eval(data)" ⟨"eval", by decide, by decide⟩

/-! ## Tables, cells and the Sandboxed Executor (`excel_service.ExcelService`) -/

/-- Runtime value of one numeric cell: finite (modelled over `Int`; the
claims only classify values, never do arithmetic on them), positive or
negative infinity, or NaN (pandas missing value). -/
inductive FloatVal
  | fin (q : Int)
  | posInf
  | negInf
  | nan
deriving DecidableEq, Repr

/-- One cell of a DataFrame: a numeric value, a string, or Python `None`
(the JSON null marker). -/
inductive Cell
  | num (v : FloatVal)
  | str (s : String)
  | null
deriving DecidableEq, Repr

/-- A pandas DataFrame modelled as ordered named columns over ordered rows
of cells. -/
structure Table where
  cols : List String
  rows : List (List Cell)
deriving DecidableEq, Repr

/-- Runtime type of the value the generated code left in `result`, covering
exactly the `isinstance` branches of `ExcelService._process_result`: a
DataFrame, a Series (modelled by its index-to-value entries, which is what
`to_dict` produces), the scalar types int/float/str/bool, a dict, a list,
or any other object.  An `other` object carries its type name and the
outcome of calling `str()` on it, which may itself raise (`.error` carries
the exception text). -/
inductive PyVal
  | frame (t : Table)
  | series (entries : List (String × Cell))
  | intV (n : Int)
  | floatV (v : FloatVal)
  | strV (s : String)
  | boolV (b : Bool)
  | dictV (entries : List (String × Cell))
  | listV (items : List Cell)
  | other (typeName : String) (toStr : Except String String)
deriving DecidableEq, Repr

/-- The normalized payload placed in the envelope's `result` key. -/
inductive Payload
  | records (rows : List (List Cell))
  | mapping (entries : List (String × Cell))
  | scalarInt (n : Int)
  | scalarFloat (q : Int)
  | scalarStr (s : String)
  | scalarBool (b : Bool)
  | scalarNone
  | passDict (entries : List (String × Cell))
  | passList (items : List Cell)
  | text (s : String)
deriving DecidableEq, Repr

/-- The execution result envelope returned by `execute_query_code`; a
`none` field models a key absent from the returned Python dict. -/
structure Envelope where
  success : Bool
  result : Option Payload
  result_type : Option String
  shape : Option (List Nat)
  columns : Option (List String)
  truncated : Option Bool
  length : Option Nat
  value_type : Option String
  original_type : Option String
  error : Option String
deriving DecidableEq, Repr

/-- The row cap of `ExcelService.__init__` (`max_result_rows = 10000`). -/
def max_result_rows : Nat := 10000

/-- Composition of the two normalization steps the source applies to every
DataFrame/Series cell: `replace([inf, -inf], None)` followed by
`where(pd.notna(...), None)` — infinities and NaN all become `None`. -/
def normalizeCell : Cell → Cell
  | .num .posInf => .null
  | .num .negInf => .null
  | .num .nan => .null
  | c => c

/-- The failure envelope shape built in `execute_query_code`'s two failure
branches: only `success`, `error`, `result`, `result_type` are present. -/
def failureEnvelope (msg : String) : Envelope :=
  { success := false, result := none, result_type := none,
    shape := none, columns := none, truncated := none, length := none,
    value_type := none, original_type := none, error := some msg }

/-- Embedding of `ExcelService._process_result`
(src/app/services/excel_service.py lines 134-222).  The `modified_df`
argument is accepted and unused, exactly as in the source.  The one branch
that can raise is the final `str(result)` call on an unknown type; the
raised exception is the `.error` case, caught by `execute_query_code`. -/
def process_result (result : PyVal) (modified_df : Table) : Except String Envelope :=
  match result with
  | .frame t =>
    let norm := t.rows.map (fun r => r.map normalizeCell)
    let outRows := if norm.length > max_result_rows then norm.take max_result_rows else norm
    .ok { success := true, result := some (.records outRows),
          result_type := some "dataframe",
          shape := some [outRows.length, t.cols.length],
          columns := some t.cols,
          truncated := some (decide (norm.length > max_result_rows)),
          length := none, value_type := none, original_type := none, error := none }
  | .series es =>
    let nes := es.map (fun kv => (kv.1, normalizeCell kv.2))
    .ok { success := true, result := some (.mapping nes),
          result_type := some "series", shape := some [nes.length],
          columns := none, truncated := none, length := none,
          value_type := none, original_type := none, error := none }
  | .intV n =>
    .ok { success := true, result := some (.scalarInt n),
          result_type := some "scalar", shape := none, columns := none,
          truncated := none, length := none, value_type := some "int",
          original_type := none, error := none }
  | .floatV v =>
    .ok { success := true,
          result := some (match v with | .fin q => .scalarFloat q | _ => .scalarNone),
          result_type := some "scalar", shape := none, columns := none,
          truncated := none, length := none, value_type := some "float",
          original_type := none, error := none }
  | .strV s =>
    .ok { success := true, result := some (.scalarStr s),
          result_type := some "scalar", shape := none, columns := none,
          truncated := none, length := none, value_type := some "str",
          original_type := none, error := none }
  | .boolV b =>
    .ok { success := true, result := some (.scalarBool b),
          result_type := some "scalar", shape := none, columns := none,
          truncated := none, length := none, value_type := some "bool",
          original_type := none, error := none }
  | .dictV d =>
    .ok { success := true, result := some (.passDict d),
          result_type := some "dict", shape := none, columns := none,
          truncated := none, length := none, value_type := none,
          original_type := none, error := none }
  | .listV l =>
    .ok { success := true, result := some (.passList l),
          result_type := some "list", shape := none, columns := none,
          truncated := none, length := some l.length, value_type := none,
          original_type := none, error := none }
  | .other tn ts =>
    match ts with
    | .ok s =>
      .ok { success := true, result := some (.text s),
            result_type := some "other", shape := none, columns := none,
            truncated := none, length := none, value_type := none,
            original_type := some tn, error := none }
    | .error m => .error m

/-- Semantics of `exec(code, namespace)` on the namespace prepared by the
executor: the generated code sees the DataFrame bound to `df` and either
raises an `Exception`-derived exception (the class the source's
`except Exception` handler catches; `BaseException`-only raises are covered
by the refined `CodeExc` model further below), or finishes leaving a
(possibly mutated or rebound) `df` and the value of the `result` binding
(`none` both when `result` was never reassigned and when it was set to
Python `None`, which `namespace.get('result')` cannot distinguish). -/
inductive ExecOutcome
  | raises (msg : String)
  | finishes (df : Table) (result : Option PyVal)

/-- A piece of generated code, represented by its execution semantics. -/
abbrev Code := Table → ExecOutcome

/-- Embedding of `ExcelService.execute_query_code`
(src/app/services/excel_service.py lines 84-132): build the namespace with
a copy of `df`, run the code, return the missing-binding failure when
`result` is still `None`, normalize otherwise, and convert a raised
`Exception`-derived exception (from the code or from `_process_result`)
into a failure envelope via the `except Exception` handler at line 126.
This coarse model covers exactly the executions that handler contains;
`execute_query_code_exc` below refines it with the full `BaseException`
hierarchy, whose uncaught raises escape the source function.  (The
`traceback.format_exc()` diagnostic text appended after the exception
message is elided.) -/
def execute_query_code (df : Table) (code : Code) : Envelope :=
  match code df with
  | .raises msg => failureEnvelope ("Execution error: " ++ msg)
  | .finishes dfAfter res =>
    match res with
    | none =>
      failureEnvelope "Code did not produce a result. Ensure you set result = ..."
    | some v =>
      match process_result v dfAfter with
      | .ok env => env
      | .error m => failureEnvelope ("Execution error: " ++ m)

/-- Heap-explicit embedding of the same `execute_query_code`, used to state
the frame property.  Python objects live on a heap of `Table`s addressed by
position; the caller's DataFrame sits at `addr`.  The namespace entry
`'df': df.copy()` allocates an independent copy at the fresh address
`heap.length`, and every in-place mutation or rebinding the generated code
performs lands on that fresh address, never on `addr`. -/
def run_on_heap (heap : List Table) (addr : Nat) (code : Code) :
    List Table × Envelope :=
  let df := heap.getD addr { cols := [], rows := [] }
  let heap1 := heap ++ [df]
  match code (heap1.getD heap.length { cols := [], rows := [] }) with
  | .raises msg => (heap1, failureEnvelope ("Execution error: " ++ msg))
  | .finishes dfAfter res =>
    let heap2 := heap1.set heap.length dfAfter
    match res with
    | none =>
      (heap2, failureEnvelope "Code did not produce a result. Ensure you set result = ...")
    | some v =>
      match process_result v dfAfter with
      | .ok env => (heap2, env)
      | .error m => (heap2, failureEnvelope ("Execution error: " ++ m))

/-- Helper for the frame property: appending a copy and then overwriting
only the copy's (fresh) address leaves every caller-visible address
unchanged. -/
theorem get_append_set_fresh (heap : List Table) (addr : Nat) (d t2 : Table)
    (h : addr < heap.length) :
    ((heap ++ [d]).set heap.length t2).get? addr = heap.get? addr := by
  rw [List.get?_set_ne _ _ (Nat.ne_of_gt h)]
  exact List.get?_append h

/-- C2: execute runs the generated code against a private copy of the
Table, so the caller's original Table (held at `addr` on the heap) is
unchanged after the call, whether the execution raises, misses the result
binding, or succeeds. -/
theorem executor_preserves_caller_table (heap : List Table) (addr : Nat) (code : Code)
    (h : addr < heap.length) :
    ((run_on_heap heap addr code).1).get? addr = heap.get? addr := by
  unfold run_on_heap
  dsimp only
  cases code ((heap ++ [heap.getD addr { cols := [], rows := [] }]).getD
      heap.length { cols := [], rows := [] }) with
  | raises m =>
    exact List.get?_append h
  | finishes dfAfter res =>
    cases res with
    | none => exact get_append_set_fresh heap addr _ _ h
    | some v =>
      dsimp only
      cases hp : process_result v dfAfter with
      | ok env => exact get_append_set_fresh heap addr _ _ h
      | error m => exact get_append_set_fresh heap addr _ _ h

/-- Witness for C2: a one-table heap and code that rebinds `df` to a
different table and never sets `result`. -/
theorem executor_preserves_caller_table_witness :
    ((run_on_heap [{ cols := ["a"], rows := [[Cell.null]] }] 0
        (fun _ => .finishes { cols := [], rows := [] } none)).1).get? 0
      = [({ cols := ["a"], rows := [[Cell.null]] } : Table)].get? 0 :=
  executor_preserves_caller_table _ 0 _ (by decide)

/-- C3: when the generated code completes without raising but leaves the
output binding unassigned (still `None`), `execute_query_code` returns a
failure envelope whose error message states the `result =` binding
requirement; no exception propagates (the call returns an `Envelope`). -/
theorem executor_reports_missing_result (df : Table) (code : Code) (dfAfter : Table)
    (h : code df = .finishes dfAfter none) :
    execute_query_code df code
        = failureEnvelope "Code did not produce a result. Ensure you set result = ..."
    ∧ (execute_query_code df code).success = false
    ∧ (execute_query_code df code).error
        = some "Code did not produce a result. Ensure you set result = ..."
    ∧ strIn "result =" "Code did not produce a result. Ensure you set result = ..." = true := by
  have he : execute_query_code df code
      = failureEnvelope "Code did not produce a result. Ensure you set result = ..." := by
    unfold execute_query_code
    rw [h]
  exact ⟨he, by rw [he]; rfl, by rw [he]; rfl, by decide⟩

/-- Witness for C3: code that mutates nothing and never assigns `result`. -/
theorem executor_reports_missing_result_witness :
    execute_query_code { cols := ["a"], rows := [[Cell.null]] } (fun t => .finishes t none)
        = failureEnvelope "Code did not produce a result. Ensure you set result = ..."
    ∧ (execute_query_code { cols := ["a"], rows := [[Cell.null]] } (fun t => .finishes t none)).success
        = false
    ∧ (execute_query_code { cols := ["a"], rows := [[Cell.null]] } (fun t => .finishes t none)).error
        = some "Code did not produce a result. Ensure you set result = ..."
    ∧ strIn "result =" "Code did not produce a result. Ensure you set result = ..." = true :=
  executor_reports_missing_result { cols := ["a"], rows := [[Cell.null]] }
    (fun t => .finishes t none) { cols := ["a"], rows := [[Cell.null]] } rfl

/-- Helper: over the coarse model (every raise `Exception`-derived), the
envelope returned by `execute_query_code` carries an error string exactly
when its success flag is false. -/
theorem envelope_error_iff_not_success (df : Table) (code : Code) :
    (execute_query_code df code).error.isSome = !(execute_query_code df code).success := by
  unfold execute_query_code
  cases code df with
  | raises m => rfl
  | finishes dfAfter res =>
    cases res with
    | none => rfl
    | some v =>
      cases v with
      | frame t => rfl
      | series es => rfl
      | intV n => rfl
      | floatV fv => cases fv <;> rfl
      | strV s => rfl
      | boolV b => rfl
      | dictV d => rfl
      | listV l => rfl
      | other tn ts => cases ts with
        | ok s => rfl
        | error m => rfl

/-- C4: a table-shaped result with more than 10,000 rows is truncated to
exactly 10,000 payload rows with `truncated = true`; one with at most
10,000 rows keeps every (normalized) row with `truncated = false`. -/
theorem process_result_truncation (t : Table) (df : Table) :
    (t.rows.length > max_result_rows →
      ∃ env rs, process_result (.frame t) df = .ok env
        ∧ env.truncated = some true
        ∧ env.result = some (.records rs)
        ∧ rs.length = max_result_rows)
    ∧ (t.rows.length ≤ max_result_rows →
      ∃ env rs, process_result (.frame t) df = .ok env
        ∧ env.truncated = some false
        ∧ env.result = some (.records rs)
        ∧ rs = t.rows.map (fun r => r.map normalizeCell)
        ∧ rs.length = t.rows.length) := by
  have hlen : (t.rows.map (fun r => r.map normalizeCell)).length = t.rows.length :=
    List.length_map _ _
  constructor
  · intro h
    have hgt : (t.rows.map (fun r => r.map normalizeCell)).length > max_result_rows := by
      rw [hlen]; exact h
    have hproc : process_result (.frame t) df
        = .ok { success := true,
                result := some (.records
                  ((t.rows.map (fun r => r.map normalizeCell)).take max_result_rows)),
                result_type := some "dataframe",
                shape := some
                  [((t.rows.map (fun r => r.map normalizeCell)).take max_result_rows).length,
                   t.cols.length],
                columns := some t.cols, truncated := some true,
                length := none, value_type := none, original_type := none,
                error := none } := by
      unfold process_result
      dsimp only
      rw [if_pos hgt, decide_eq_true hgt]
    refine ⟨_, _, hproc, rfl, rfl, ?_⟩
    rw [List.length_take, hlen]
    exact Nat.min_eq_left (Nat.le_of_lt h)
  · intro h
    have hle : ¬ (t.rows.map (fun r => r.map normalizeCell)).length > max_result_rows := by
      rw [hlen]; exact Nat.not_lt.mpr h
    have hproc : process_result (.frame t) df
        = .ok { success := true,
                result := some (.records (t.rows.map (fun r => r.map normalizeCell))),
                result_type := some "dataframe",
                shape := some
                  [(t.rows.map (fun r => r.map normalizeCell)).length, t.cols.length],
                columns := some t.cols, truncated := some false,
                length := none, value_type := none, original_type := none,
                error := none } := by
      unfold process_result
      dsimp only
      rw [if_neg hle, decide_eq_false hle]
    exact ⟨_, _, hproc, rfl, rfl, rfl, hlen⟩

/-- Witness for C4: a 10,001-row table is truncated to 10,000 rows, and a
one-row table is passed through untruncated. -/
theorem process_result_truncation_witness :
    (∃ env rs,
        process_result (.frame { cols := ["a"], rows := List.replicate 10001 [Cell.null] })
            { cols := [], rows := [] } = .ok env
        ∧ env.truncated = some true
        ∧ env.result = some (.records rs)
        ∧ rs.length = max_result_rows)
    ∧ (∃ env rs,
        process_result (.frame { cols := ["a"], rows := [[Cell.num (.fin 7)]] })
            { cols := [], rows := [] } = .ok env
        ∧ env.truncated = some false
        ∧ env.result = some (.records rs)
        ∧ rs = [[Cell.num (.fin 7)]].map (fun r => r.map normalizeCell)
        ∧ rs.length = ([[Cell.num (.fin 7)]] : List (List Cell)).length) :=
  ⟨(process_result_truncation { cols := ["a"], rows := List.replicate 10001 [Cell.null] }
      { cols := [], rows := [] }).1
      (by show (List.replicate 10001 [Cell.null]).length > max_result_rows
          rw [List.length_replicate]
          decide),
   (process_result_truncation { cols := ["a"], rows := [[Cell.num (.fin 7)]] }
      { cols := [], rows := [] }).2
      (by decide)⟩

/-- C5: for table-shaped and column-shaped results, every payload cell is
the normalization of the corresponding source cell, and normalization maps
positive infinity, negative infinity and the missing value to the null
marker. -/
theorem process_result_nonfinite_to_null (t : Table) (es : List (String × Cell)) (df : Table) :
    (∃ env, process_result (.frame t) df = .ok env
      ∧ env.result
          = some (.records ((t.rows.map (fun r => r.map normalizeCell)).take max_result_rows)))
    ∧ (∃ env, process_result (.series es) df = .ok env
      ∧ env.result = some (.mapping (es.map (fun kv => (kv.1, normalizeCell kv.2)))))
    ∧ normalizeCell (.num .posInf) = .null
    ∧ normalizeCell (.num .negInf) = .null
    ∧ normalizeCell (.num .nan) = .null := by
  refine ⟨⟨_, rfl, ?_⟩, ⟨_, rfl, rfl⟩, rfl, rfl, rfl⟩
  by_cases h : (t.rows.map (fun r => r.map normalizeCell)).length > max_result_rows
  · simp only [process_result, if_pos h]
  · simp only [process_result, if_neg h]
    rw [List.take_of_length_le (Nat.not_lt.mp h)]

/-- C9 counterexample: a result value outside the known shapes whose
stringification raises.  `_process_result` does not return any envelope for
it (the `str(result)` exception escapes the normalizer), and
`execute_query_code`'s generic handler turns it into a plain
"Execution error:" failure whose message does not name the unrepresentable
type — there is no Normalizer-failure envelope. -/
theorem process_result_str_failure_not_normalizer_error :
    process_result (.other "Weird" (.error "unprintable object"))
        { cols := [], rows := [] } = .error "unprintable object"
    ∧ (execute_query_code { cols := [], rows := [] }
        (fun t => .finishes t (some (.other "Weird" (.error "unprintable object")))))
      = failureEnvelope "Execution error: unprintable object"
    ∧ strIn "Weird"
        ((execute_query_code { cols := [], rows := [] }
          (fun t => .finishes t (some (.other "Weird" (.error "unprintable object")))))
          |>.error |>.getD "") = false := by
  refine ⟨rfl, rfl, ?_⟩
  decide

/-- C9 amended: every branch of `_process_result` returns a success
envelope, except an unknown-shape value whose stringification fails, where
the exception propagates out of the normalizer and `execute_query_code`'s
generic handler converts it into a success=false envelope with an
"Execution error:" message (not a distinct normalization-failure kind). -/
theorem process_result_amended_branches (v : PyVal) (df df0 : Table) (tn m : String)
    (hv : ∀ tn2 m2, v ≠ .other tn2 (.error m2)) :
    (∃ env, process_result v df = .ok env ∧ env.success = true)
    ∧ process_result (.other tn (.error m)) df = .error m
    ∧ (execute_query_code df0
        (fun t => .finishes t (some (.other tn (.error m))))).success = false
    ∧ (execute_query_code df0
        (fun t => .finishes t (some (.other tn (.error m))))).error
      = some ("Execution error: " ++ m) := by
  refine ⟨?_, rfl, rfl, rfl⟩
  cases v with
  | frame t => exact ⟨_, rfl, rfl⟩
  | series es => exact ⟨_, rfl, rfl⟩
  | intV n => exact ⟨_, rfl, rfl⟩
  | floatV fv => cases fv <;> exact ⟨_, rfl, rfl⟩
  | strV s => exact ⟨_, rfl, rfl⟩
  | boolV b => exact ⟨_, rfl, rfl⟩
  | dictV d => exact ⟨_, rfl, rfl⟩
  | listV l => exact ⟨_, rfl, rfl⟩
  | other tn2 ts =>
    cases ts with
    | ok s => exact ⟨_, rfl, rfl⟩
    | error m2 => exact absurd rfl (hv tn2 m2)

/-- Witness for the amended C9 at a concrete in-range value and a concrete
failing stringification. -/
theorem process_result_amended_branches_witness :
    (∃ env, process_result (.intV 3) { cols := [], rows := [] } = .ok env
        ∧ env.success = true)
    ∧ process_result (.other "Frozen" (.error "boom")) { cols := [], rows := [] }
        = .error "boom"
    ∧ (execute_query_code { cols := ["a"], rows := [] }
        (fun t => .finishes t (some (.other "Frozen" (.error "boom"))))).success = false
    ∧ (execute_query_code { cols := ["a"], rows := [] }
        (fun t => .finishes t (some (.other "Frozen" (.error "boom"))))).error
      = some ("Execution error: " ++ "boom") :=
  process_result_amended_branches (.intV 3) { cols := [], rows := [] }
    { cols := ["a"], rows := [] } "Frozen" "boom" (fun _ _ h => by cases h)

/-! ## Code Generation Client (`llm_service.LLMService.generate_pandas_code`) -/

/-- A primitive JSON value as it appears in a parsed backend response
field. -/
inductive JPrim
  | jstr (s : String)
  | jbool (b : Bool)
  | jnull
deriving DecidableEq, Repr

/-- Outcome of the HTTP round-trip of `_call_ollama`: the backend returned
a body (represented by the outcome of `json.loads` on it, since the JSON
parser is the external `json` library: either a parse error message or the
parsed object as a field map), or the connection failed, or the request
timed out, or some other request error occurred. -/
inductive BackendOutcome
  | returned (parse : Except String (List (String × JPrim)))
  | connError
  | timeoutErr
  | otherHttpError (msg : String)
deriving DecidableEq, Repr

/-- Embedding of `LLMService._call_ollama`
(src/app/services/llm_service.py lines 104-133): a connection failure,
timeout, or other request error is re-raised as a generic exception with
the distinctive message built there; otherwise the response body is
returned. -/
def call_ollama (outcome : BackendOutcome) :
    Except String (Except String (List (String × JPrim))) :=
  match outcome with
  | .returned parse => .ok parse
  | .connError =>
    .error "Cannot connect to Ollama. Make sure Ollama is running: \x27ollama serve\x27"
  | .timeoutErr => .error "Ollama request timed out. Query might be too complex."
  | .otherHttpError m => .error ("Ollama error: " ++ m)

/-- The dict returned by `generate_pandas_code`; `error` is `none` exactly
on success and the JSON-derived fields are `JPrim.jnull` when the source
would carry Python `None`. -/
structure GenResult where
  success : Bool
  code : JPrim
  explanation : JPrim
  operation_type : JPrim
  creates_new_column : JPrim
  new_column_name : JPrim
  error : Option String
deriving DecidableEq, Repr

/-- The failure dict built identically in both `except` branches of
`generate_pandas_code` (only the error text differs). -/
def genFailure (msg : String) : GenResult :=
  { success := false, code := .jnull, explanation := .jnull,
    operation_type := .jnull, creates_new_column := .jbool false,
    new_column_name := .jnull, error := some msg }

/-- Embedding of `LLMService.generate_pandas_code`
(src/app/services/llm_service.py lines 31-102), on the Ollama path: call
the backend, `json.loads` the body, require a `code` field (its absence
raises `ValueError`, caught by the generic handler), and build the success
dict with the source's `result.get(...)` defaults.  A `json.JSONDecodeError`
gets the "Failed to parse..." error; every other exception (including the
backend errors re-raised by `_call_ollama`) gets the "LLM error: ..."
error.  No exception propagates to the caller. -/
def generate_pandas_code (outcome : BackendOutcome) : GenResult :=
  match call_ollama outcome with
  | .error m => genFailure ("LLM error: " ++ m)
  | .ok parse =>
    match parse with
    | .error jm => genFailure ("Failed to parse LLM response as JSON: " ++ jm)
    | .ok fields =>
      match fields.lookup "code" with
      | none => genFailure ("LLM error: LLM response missing \x27code\x27 field")
      | some c =>
        { success := true, code := c,
          explanation := (fields.lookup "explanation").getD (.jstr ""),
          operation_type := (fields.lookup "operation_type").getD (.jstr "unknown"),
          creates_new_column := (fields.lookup "creates_new_column").getD (.jbool false),
          new_column_name := (fields.lookup "new_column_name").getD .jnull,
          error := none }

/-- The three distinguishable failure reasons the spec requires of the
generation client. -/
inductive FailureReason
  | malformedOutput
  | backendUnreachable
  | requestTimeout
deriving DecidableEq, Repr

/-- A decidable classifier witnessing that the three failure reasons stay
distinguishable from the error text alone. -/
def classify_gen_error (e : String) : Option FailureReason :=
  if strStarts "Failed to parse LLM response as JSON:" e then some .malformedOutput
  else if strStarts "LLM error: Cannot connect to Ollama" e then some .backendUnreachable
  else if strStarts "LLM error: Ollama request timed out" e then some .requestTimeout
  else none

/-- String append acts as list append on the underlying character data. -/
theorem strData_append (a b : String) : (a ++ b).data = a.data ++ b.data := by
  cases a
  cases b
  rfl

/-- Appending text on the right preserves any leading prefix. -/
theorem strStarts_extend_right (p q r : String) (h : strStarts p q = true) :
    strStarts p (q ++ r) = true := by
  unfold strStarts at h ⊢
  rw [strData_append]
  exact List.isPrefixOf_iff_prefix.mpr
    ((List.isPrefixOf_iff_prefix.mp h).trans (List.prefix_append q.data r.data))

example :
    classify_gen_error
        ("LLM error: " ++ "Cannot connect to Ollama. Make sure Ollama is running: \x27ollama serve\x27")
      = some .backendUnreachable := by decide

/-- C6: for every backend outcome that does not yield parseable JSON
containing a code field — malformed output, connection failure, or timeout
— `generate_pandas_code` returns success=false with the reason in its error
text (no exception propagates, since a `GenResult` is always returned), and
the three reasons are distinguishable from one another: the decidable
classifier `classify_gen_error` recovers a different `FailureReason` from
each error text. -/
theorem generate_code_failure_reasons (jm : String)
    (fields : List (String × JPrim)) (hnc : fields.lookup "code" = none) :
    ((generate_pandas_code .connError).success = false
      ∧ ∃ e, (generate_pandas_code .connError).error = some e
          ∧ classify_gen_error e = some .backendUnreachable)
    ∧ ((generate_pandas_code .timeoutErr).success = false
      ∧ ∃ e, (generate_pandas_code .timeoutErr).error = some e
          ∧ classify_gen_error e = some .requestTimeout)
    ∧ ((generate_pandas_code (.returned (.error jm))).success = false
      ∧ ∃ e, (generate_pandas_code (.returned (.error jm))).error = some e
          ∧ classify_gen_error e = some .malformedOutput)
    ∧ ((generate_pandas_code (.returned (.ok fields))).success = false
      ∧ (generate_pandas_code (.returned (.ok fields))).error
          = some ("LLM error: LLM response missing \x27code\x27 field")) := by
  refine ⟨⟨rfl, _, rfl, by decide⟩, ⟨rfl, _, rfl, by decide⟩, ⟨rfl, _, rfl, ?_⟩, ?_⟩
  · unfold classify_gen_error
    rw [strStarts_extend_right "Failed to parse LLM response as JSON:"
      "Failed to parse LLM response as JSON: " jm (by decide)]
    simp
  · constructor
    · simp [generate_pandas_code, call_ollama, hnc, genFailure]
    · simp [generate_pandas_code, call_ollama, hnc, genFailure]

/-- Witness for C6 at a concrete parse-error text and a concrete parsed
object lacking a code field. -/
theorem generate_code_failure_reasons_witness :
    ((generate_pandas_code .connError).success = false
      ∧ ∃ e, (generate_pandas_code .connError).error = some e
          ∧ classify_gen_error e = some .backendUnreachable)
    ∧ ((generate_pandas_code .timeoutErr).success = false
      ∧ ∃ e, (generate_pandas_code .timeoutErr).error = some e
          ∧ classify_gen_error e = some .requestTimeout)
    ∧ ((generate_pandas_code (.returned (.error "Expecting value"))).success = false
      ∧ ∃ e, (generate_pandas_code (.returned (.error "Expecting value"))).error = some e
          ∧ classify_gen_error e = some .malformedOutput)
    ∧ ((generate_pandas_code (.returned (.ok [("explanation", .jstr "no code")]))).success = false
      ∧ (generate_pandas_code (.returned (.ok [("explanation", .jstr "no code")]))).error
          = some ("LLM error: LLM response missing \x27code\x27 field")) :=
  generate_code_failure_reasons "Expecting value" [("explanation", .jstr "no code")] (by decide)

/-! ## Table Loader (`excel_service.ExcelService.read_excel`) -/

/-- Outcome of the underlying pandas file parse (`pd.read_csv` /
`pd.read_excel`, an external dependency): either it raises with a message
(file absent or unparseable) or it produces a DataFrame — possibly one
with zero rows. -/
inductive ParseOutcome
  | fail (msg : String)
  | parsed (t : Table)
deriving DecidableEq, Repr

/-- Count of null cells (pandas counts NaN and None) in the `j`-th column
of a table. -/
def nullCountAt (t : Table) (j : Nat) : Nat :=
  (t.rows.map (fun r => r.getD j .null)).countP
    (fun c => c = Cell.null || c = Cell.num .nan)

/-- Does the row list contain two equal rows (`df.duplicated().any()`)? -/
def hasDupRows : List (List Cell) → Bool
  | [] => false
  | r :: rest => rest.contains r || hasDupRows rest

/-- The metadata dict of `ExcelService._extract_dataframe_info`
(src/app/services/excel_service.py lines 59-82), restricted to the fields
derivable in the model: shape, column list, the 5-row sample, per-column
null counts and the duplicate flag.  The purely presentational fields
(`sample_data`/`statistics` rendered to display text, `memory_usage`,
`dtypes`) are elided. -/
structure FileInfo where
  shape : List Nat
  columns : List String
  sample_rows : List (List Cell)
  null_counts : List (String × Nat)
  has_duplicates : Bool
deriving DecidableEq, Repr

/-- Embedding of `_extract_dataframe_info` on the model fields; note that
nothing here raises on a zero-row table (the `describe()` call that can
raise sits in a bare try/except that substitutes placeholder text). -/
def extract_dataframe_info (t : Table) : FileInfo :=
  { shape := [t.rows.length, t.cols.length],
    columns := t.cols,
    sample_rows := t.rows.take 5,
    null_counts := (List.range t.cols.length).map
      (fun j => (t.cols.getD j "", nullCountAt t j)),
    has_duplicates := hasDupRows t.rows }

/-- Embedding of `ExcelService.read_excel`
(src/app/services/excel_service.py lines 19-47): any exception from the
pandas parse is re-raised as `ValueError("Error reading file: ...")` (the
spec's `LoadError`); a successfully parsed DataFrame is returned with its
metadata, with no emptiness check of any kind. -/
def read_excel (p : ParseOutcome) : Except String (Table × FileInfo) :=
  match p with
  | .fail msg => .error ("Error reading file: " ++ msg)
  | .parsed t => .ok (t, extract_dataframe_info t)

/-- C7 counterexample: a parseable file yielding a zero-row table is NOT
rejected — `read_excel` returns the empty Table with metadata, refuting
the claim that it fails with a `LoadError` exactly as for unparseable or
absent files. -/
theorem read_excel_accepts_zero_rows :
    ¬ (∃ e, read_excel (.parsed { cols := ["a"], rows := [] }) = .error e) := by
  rintro ⟨e, h⟩
  cases h

/-- C7 amended: `read_excel` fails with a `LoadError` when the file cannot
be parsed or is absent, but a parseable file with zero rows is returned as
an empty Table together with its metadata (the emptiness rejection in this
repository lives in the HTTP route, outside the loader). -/
theorem read_excel_amended_behavior (msg : String) (t : Table) :
    read_excel (.fail msg) = .error ("Error reading file: " ++ msg)
    ∧ read_excel (.parsed t) = .ok (t, extract_dataframe_info t) :=
  ⟨rfl, rfl⟩

/-! ## Join Planner (`join_service.JoinService`) -/

/-- Identifier-like keywords of `_detect_join_columns`
(src/app/services/join_service.py line 122), verbatim. -/
def id_keywords : List String :=
  ["id", "key", "code", "number", "no"]

/-- Does a column name contain an identifier-like keyword
(`any(keyword in col.lower() for keyword in id_keywords)`)? -/
def isIdLikeName (col : String) : Bool :=
  id_keywords.any (fun k => strIn k (lowerStr col))

/-- Embedding of `JoinService._detect_join_columns`
(src/app/services/join_service.py lines 100-131) parameterized by the list
`commonIter`, the enumeration of `list(set(df1.columns) & set(df2.columns))`:
Python yields the common column names in an unspecified hash-based set
iteration order, so the embedding takes that enumeration as an argument and
theorems quantify over all permutations of the true common-column set. -/
def detect_join_columns (commonIter : List String) : List String :=
  if commonIter.isEmpty then []
  else
    let priority := commonIter.filter isIdLikeName
    if priority.isEmpty then commonIter.take 1 else priority.take 1

/-- The set of column names present (by exact name) in both tables —
the contents of `set(df1.columns) & set(df2.columns)`, without a
distinguished order. -/
def commonColumns (df1 df2 : Table) : List String :=
  (df1.cols.filter (fun c => df2.cols.contains c)).dedup

/-- The `JoinError`s of `smart_join` (`ValueError`s in the source). -/
inductive JoinError
  | noJoinColumns
  | columnNotFound (col : String) (dataset : Nat)
  | mergeFailed (msg : String)
deriving DecidableEq, Repr

/-- The `pd.merge` call — pandas is an external dependency of this
repository, so the merge engine is a parameter of the embedding. -/
abbrev MergeFn := Table → Table → List String → String → Except String Table

/-- The validation loop and merge call of `smart_join`
(src/app/services/join_service.py lines 71-98): for each key column, in
order, first the first-dataset check and then the second-dataset check; a
raising `pd.merge` is re-raised as a `JoinError` (the single-key and
multi-key calls both pass the same key set and fixed suffixes, so the model
passes the key list to the merge parameter in both cases). -/
def smart_join_validated (merge : MergeFn) (df1 df2 : Table)
    (jc : List String) (how : String) : Except JoinError Table :=
  match jc.find? (fun c => !(df1.cols.contains c) || !(df2.cols.contains c)) with
  | some c =>
    if df1.cols.contains c then .error (.columnNotFound c 2)
    else .error (.columnNotFound c 1)
  | none =>
    match merge df1 df2 jc how with
    | .ok t => .ok t
    | .error m => .error (.mergeFailed m)

/-- Embedding of `JoinService.smart_join`
(src/app/services/join_service.py lines 43-98): auto-detect the key
columns when none were given (raising `JoinError` when detection finds
nothing), then validate and merge. -/
def smart_join (merge : MergeFn) (df1 df2 : Table) (commonIter : List String)
    (join_columns : Option (List String)) (how : String) : Except JoinError Table :=
  match join_columns with
  | none =>
    let jc := detect_join_columns commonIter
    if jc.isEmpty then .error .noJoinColumns
    else smart_join_validated merge df1 df2 jc how
  | some jc => smart_join_validated merge df1 df2 jc how

/-- C8 counterexample: detection is not deterministic as a function of the
two tables — for tables whose common columns are `id` and `code` (both
identifier-like), two legitimate set-iteration orders make
`_detect_join_columns` recommend different keys. -/
theorem detect_join_columns_order_dependent :
    List.Perm ["id", "code"]
        (commonColumns { cols := ["id", "code", "x"], rows := [] }
          { cols := ["id", "code", "y"], rows := [] })
    ∧ List.Perm ["code", "id"]
        (commonColumns { cols := ["id", "code", "x"], rows := [] }
          { cols := ["id", "code", "y"], rows := [] })
    ∧ detect_join_columns ["id", "code"] ≠ detect_join_columns ["code", "id"] :=
  ⟨by decide, by decide, by decide⟩

/-- C8 amended: for any enumeration order of the common-column set,
(a) when the only common column is literally `id`, detection recommends
exactly `["id"]`; (b) when there is no common column and no explicit keys,
`smart_join` raises `JoinError`; (c) detection always recommends a common
column and prefers identifier-like names — but the pick is the first
candidate of the unspecified set-iteration order, so it is deterministic
only relative to that order, not as a function of the two tables. -/
theorem join_detection_amended :
    (∀ (df1 df2 : Table) (iter : List String),
      iter.Perm (commonColumns df1 df2) → commonColumns df1 df2 = ["id"] →
      detect_join_columns iter = ["id"])
    ∧ (∀ (merge : MergeFn) (df1 df2 : Table) (how : String) (iter : List String),
      iter.Perm (commonColumns df1 df2) → commonColumns df1 df2 = [] →
      smart_join merge df1 df2 iter none how = .error .noJoinColumns)
    ∧ (∀ (df1 df2 : Table) (iter : List String),
      iter.Perm (commonColumns df1 df2) →
      ∀ c ∈ detect_join_columns iter,
        c ∈ commonColumns df1 df2
        ∧ (iter.filter isIdLikeName ≠ [] → isIdLikeName c = true)) := by
  refine ⟨?_, ?_, ?_⟩
  · intro df1 df2 iter hperm hcommon
    rw [hcommon] at hperm
    rw [List.perm_singleton.mp hperm]
    decide
  · intro merge df1 df2 how iter hperm hcommon
    rw [hcommon] at hperm
    rw [hperm.eq_nil]
    rfl
  · intro df1 df2 iter hperm c hc
    have hmem : c ∈ iter := by
      unfold detect_join_columns at hc
      by_cases he : iter.isEmpty
      · rw [if_pos he] at hc
        cases hc
      · rw [if_neg he] at hc
        dsimp only at hc
        by_cases hp : (iter.filter isIdLikeName).isEmpty
        · rw [if_pos hp] at hc
          exact List.take_subset 1 iter hc
        · rw [if_neg hp] at hc
          exact List.mem_of_mem_filter (List.take_subset 1 _ hc)
    refine ⟨hperm.mem_iff.mp hmem, ?_⟩
    intro hne
    unfold detect_join_columns at hc
    have he : ¬ iter.isEmpty := by
      intro he
      rw [List.isEmpty_iff] at he
      rw [he] at hne
      exact hne rfl
    rw [if_neg he] at hc
    dsimp only at hc
    have hp : ¬ (iter.filter isIdLikeName).isEmpty := by
      rw [List.isEmpty_iff]
      exact hne
    rw [if_neg hp] at hc
    have := List.take_subset 1 (iter.filter isIdLikeName) hc
    exact (List.mem_filter.mp this).2

/-- Witness for the amended C8 at concrete tables: an `id`-only pair, a
disjoint pair, and an enumeration with an identifier-like candidate. -/
theorem join_detection_amended_witness :
    detect_join_columns ["id"] = ["id"]
    ∧ smart_join (fun t1 _ _ _ => .ok t1) { cols := ["a"], rows := [] }
        { cols := ["b"], rows := [] } [] none "inner" = .error .noJoinColumns
    ∧ ("id" ∈ commonColumns { cols := ["id"], rows := [] } { cols := ["id"], rows := [] }
        ∧ ((["id"] : List String).filter isIdLikeName ≠ [] → isIdLikeName "id" = true)) :=
  ⟨(join_detection_amended.1 { cols := ["id"], rows := [] } { cols := ["id"], rows := [] }
      ["id"] (by decide) (by decide)),
   (join_detection_amended.2.1 (fun t1 _ _ _ => .ok t1) { cols := ["a"], rows := [] }
      { cols := ["b"], rows := [] } "inner" [] (by decide) (by decide)),
   (join_detection_amended.2.2 { cols := ["id"], rows := [] } { cols := ["id"], rows := [] }
      ["id"] (by decide) "id" (by decide))⟩

/-! ## Exception hierarchy refinement of the Sandboxed Executor -/

/-- A raised Python exception, refined with the class information that
decides whether the `except Exception` handler of `execute_query_code`
catches it: `isException` is true for `Exception`-derived classes and false
for `BaseException`-only classes (`SystemExit` — also raised by the
built-in `exit()`, which the `exec` namespace does not block —
`KeyboardInterrupt`, `GeneratorExit`, or a bare `BaseException`). -/
structure PyExc where
  isException : Bool
  msg : String
deriving DecidableEq, Repr

/-- Execution semantics of generated code under the full exception
hierarchy: a raise carries its class information. -/
inductive ExecOutcomeExc
  | raises (e : PyExc)
  | finishes (df : Table) (result : Option PyVal)

/-- A piece of generated code under the refined raise model. -/
abbrev CodeExc := Table → ExecOutcomeExc

/-- Refinement of `execute_query_code` tracking Python's exception
hierarchy: the source's `try` block (src/app/services/excel_service.py
lines 99-132) is closed by `except Exception` at line 126, which catches
`Exception`-derived raises only.  A `BaseException`-only raise from the
generated code is not caught and escapes the call — the `.error` case.
(The `str(result)` raise inside `_process_result` is kept
`Exception`-derived, matching the coarse model it refines.) -/
def execute_query_code_exc (df : Table) (code : CodeExc) : Except PyExc Envelope :=
  match code df with
  | .raises e =>
    if e.isException then .ok (failureEnvelope ("Execution error: " ++ e.msg))
    else .error e
  | .finishes dfAfter res =>
    match res with
    | none =>
      .ok (failureEnvelope "Code did not produce a result. Ensure you set result = ...")
    | some v =>
      match process_result v dfAfter with
      | .ok env => .ok env
      | .error m => .ok (failureEnvelope ("Execution error: " ++ m))

/-- Projection of a hierarchy-aware code onto the coarse `Code` model, in
which every raise is `Exception`-derived. -/
def toCoarseCode (code : CodeExc) : Code := fun t =>
  match code t with
  | .raises e => .raises e.msg
  | .finishes d r => .finishes d r

/-- C10 counterexample: generated code containing no forbidden keyword can
still raise a `BaseException`-derived exception (`raise SystemExit`,
`exit()`, `KeyboardInterrupt`); the `except Exception` handler does not
catch it, so `execute_query_code` raises instead of returning an envelope
— refuting the claim that the call always returns an envelope and that no
exception raised by the generated code escapes. -/
theorem execute_base_exception_escapes :
    execute_query_code_exc { cols := [], rows := [] }
        (fun _ => .raises { isException := false, msg := "SystemExit" })
      = .error { isException := false, msg := "SystemExit" }
    ∧ ∀ env, execute_query_code_exc { cols := [], rows := [] }
        (fun _ => .raises { isException := false, msg := "SystemExit" })
      ≠ .ok env := by
  refine ⟨rfl, ?_⟩
  intro env h
  exact Except.noConfusion h

/-- C10 amended: `execute_query_code` is total at its boundary for every
execution whose raises are `Exception`-derived — it returns exactly the
coarse-model envelope, whose error field is a string exactly when success
is false — but an execution raising a `BaseException`-only exception
escapes the call with that exception instead of returning an envelope. -/
theorem execute_total_envelope_amended (df : Table) (code : CodeExc) :
    ((∀ e, code df = .raises e → e.isException = true) →
      execute_query_code_exc df code = .ok (execute_query_code df (toCoarseCode code))
      ∧ ∃ env, execute_query_code_exc df code = .ok env
          ∧ env.error.isSome = !env.success)
    ∧ (∀ e, code df = .raises e → e.isException = false →
        execute_query_code_exc df code = .error e) := by
  constructor
  · intro h
    have heq : execute_query_code_exc df code
        = .ok (execute_query_code df (toCoarseCode code)) := by
      unfold execute_query_code_exc execute_query_code toCoarseCode
      cases hc : code df with
      | raises e =>
        dsimp only
        rw [if_pos (h e hc)]
      | finishes dfAfter res =>
        dsimp only
        cases res with
        | none => rfl
        | some v =>
          dsimp only
          cases hp : process_result v dfAfter with
          | ok env => rfl
          | error m => rfl
    exact ⟨heq, execute_query_code df (toCoarseCode code), heq,
      envelope_error_iff_not_success df (toCoarseCode code)⟩
  · intro e hc hbase
    unfold execute_query_code_exc
    rw [hc]
    dsimp only
    rw [if_neg (by rw [hbase]; exact Bool.false_ne_true)]

/-- Witness for the amended C10: code raising an `Exception`-derived error
returns an envelope obeying the error/success discipline, and code raising
a `BaseException`-only exception escapes with it. -/
theorem execute_total_envelope_amended_witness :
    (execute_query_code_exc { cols := ["a"], rows := [] }
        (fun _ => .raises { isException := true, msg := "ZeroDivisionError" })
      = .ok (execute_query_code { cols := ["a"], rows := [] }
          (toCoarseCode (fun _ => .raises { isException := true, msg := "ZeroDivisionError" })))
      ∧ ∃ env, execute_query_code_exc { cols := ["a"], rows := [] }
            (fun _ => .raises { isException := true, msg := "ZeroDivisionError" })
          = .ok env ∧ env.error.isSome = !env.success)
    ∧ execute_query_code_exc { cols := ["a"], rows := [] }
        (fun _ => .raises { isException := false, msg := "KeyboardInterrupt" })
      = .error { isException := false, msg := "KeyboardInterrupt" } :=
  ⟨(execute_total_envelope_amended { cols := ["a"], rows := [] }
      (fun _ => .raises { isException := true, msg := "ZeroDivisionError" })).1
      (fun e he => by cases he; rfl),
   (execute_total_envelope_amended { cols := ["a"], rows := [] }
      (fun _ => .raises { isException := false, msg := "KeyboardInterrupt" })).2
      { isException := false, msg := "KeyboardInterrupt" } rfl rfl⟩
